import Mathlib

/-!
Shallow embedding of `socialregistration/views.py` (django-socialregistration).

The view handlers are translated into pure Lean functions.  A handler takes
the view configuration, an environment describing the results of the external
collaborators (profile repository, authentication resolver, identity client),
and the incoming request (authentication state plus session), and returns
either a propagated exception together with the request state at the moment
of the fault, or an `Outcome`: the HTTP response, the final request state and
the ordered trace of side effects (signals, logins, persistence).
-/

namespace SocialReg

/-- Identity client instance stored in the session (`request.session[key]`).
The flag `completed` records whether `client.complete` has run. -/
structure Client where
  id : Nat
  completed : Bool
  deriving Repr, DecidableEq

/-- Local user account.  Mirrors the fields of the framework user that the
views touch: `username`, `is_active`, and usable-password state. -/
structure User where
  id : Nat
  username : String
  isActive : Bool
  hasUsablePassword : Bool
  deriving Repr, DecidableEq

/-- Persisted (or pending) profile linking one remote identity to the local
user with id `userId` (`profile.user`). -/
structure Profile where
  id : Nat
  userId : Nat
  deriving Repr, DecidableEq

/-- Browser session.  `next` is the stored post-login URL
(`request.session['next']`); `client` is the identity client stored under the
provider session key; `pendingUser`/`pendingProfile`/`pendingClient` are the
triple stored by `store_user`/`store_profile`/`store_client` for the Setup
step. -/
structure Session where
  next : Option String
  client : Option Client
  pendingUser : Option User
  pendingProfile : Option Profile
  pendingClient : Option Client
  deriving Repr, DecidableEq

/-- Incoming request: `user` is `some u` when `request.user.is_authenticated()`
and `none` for the anonymous user; `nextParam` is the `next` value carried by
the request itself (query/form parameter). -/
structure Request where
  user : Option User
  nextParam : Option String
  session : Session
  deriving Repr, DecidableEq

/-- Observable side effects, in the order the handler performs them. -/
inductive Event where
  | connectSignal (userId profileId clientId : Nat)
  | loginSignal (userId profileId clientId : Nat)
  | loginPerformed (userId : Nat)
  | userSaved (u : User)
  | profileSaved (p : Profile)
  | profileCreated (p : Profile)
  deriving Repr, DecidableEq

/-- HTTP responses the views produce. -/
inductive Response where
  | redirect (url : String)
  | errorResponse (msg : String)
  | inactiveResponse
  | renderForm
  | methodNotAllowed
  deriving Repr, DecidableEq

/-- Exceptions that can escape a handler.  `nameError` is the fault raised by
evaluating the undefined name `error` in an `except error:` clause. -/
inductive Fault where
  | clientFault
  | timeout
  | doesNotExist
  | nameError
  deriving Repr, DecidableEq

/-- Result of running one handler to completion. -/
structure Outcome where
  response : Response
  request : Request
  events : List Event
  deriving Repr, DecidableEq

/-- Handler result: either a propagated exception paired with the request
state at the moment it escaped, or a normal outcome. -/
abbrev HandlerResult := Except (Fault × Request) Outcome

/-- Results of the external collaborators (spec section 6), fixed per request:
profile lookup by the handshake's lookup keys, lookup additionally filtered by
user, `authenticate(**lookup_kwargs)`, `create_user()`, the id given to a
profile created in this request, the pluggable username function,
`profile.authenticate()`, and the identity client calls `get_redirect_url`
and `complete`. -/
structure Env where
  getProfile : Option Profile
  getProfileByUser : Option Profile
  authenticateLookup : Option User
  freshUser : User
  freshProfileId : Nat
  usernameFor : User → Profile → Client → String
  profileAuth : Profile → User
  getRedirectUrl : Except Fault String
  completeResult : Except Fault Client

/-- View configuration: `SOCIALREGISTRATION_GENERATE_USERNAME`,
`SOCIALREGISTRATION_ALLOW_OPENID_SIGNUPS`, and whether the view's configured
client class is `OpenIDClient` (`self.client is OpenIDClient`). -/
structure Config where
  generateUsername : Bool
  allowOpenidSignups : Bool
  clientIsOpenID : Bool
  deriving Repr, DecidableEq

/-- Modelled from the spec: `get_next` of the `SocialRegistration` mixin is
not under `src/`.  The desired post-login URL is the one carried by the
request if present, else the stored session value, defaulting to the site
home. -/
def get_next (r : Request) : String :=
  match r.nextParam with
  | some n => n
  | none => match r.session.next with
            | some n => n
            | none => "/"

/-- Modelled from the spec: `delete_session_data` clears the pending
user/profile/client triple stored for the Setup step ("clear pending session
state"); the stored `next` URL is untouched. -/
def delete_session_data (r : Request) : Request :=
  { r with session := { r.session with
      pendingUser := none, pendingProfile := none, pendingClient := none } }

/-- Modelled from the spec: `get_session_data` returns the pending
(user, profile, client) triple or raises `KeyError` when a key is missing. -/
def get_session_data (r : Request) : Option (User × Profile × Client) :=
  match r.session.pendingUser, r.session.pendingProfile, r.session.pendingClient with
  | some u, some p, some c => some (u, p, c)
  | _, _, _ => none

/-- Modelled from the spec: `store_user`/`store_profile`/`store_client` put
the pending triple into the session. -/
def store_session_data (r : Request) (u : User) (p : Profile) (c : Client) : Request :=
  { r with session := { r.session with
      pendingUser := some u, pendingProfile := some p, pendingClient := some c } }

/-- Modelled from the spec: `login` binds the browser session to the user. -/
def login_user (r : Request) (u : User) : Request :=
  { r with user := some u }

/-- Decision flow `SetupCallback.get` (views.py lines 272-346), branch for
branch.  Faults: `get_profile(user=user, **lookup_kwargs)` on the
anonymous-active-user branch raises `DoesNotExist` uncaught when no profile
matches. -/
def SetupCallback_get (cfg : Config) (env : Env) (r : Request) : HandlerResult :=
  match r.session.client with
  | none => .ok ⟨.errorResponse "Session expired.", r, []⟩
  | some client =>
    match r.user with
    | some u =>
      -- Logged in user (re-)connecting an account
      match env.getProfile with
      | some profile =>
        if profile.userId = u.id then
          .ok ⟨.redirect (get_next r), r,
               [.connectSignal u.id profile.id client.id]⟩
        else
          .ok ⟨.errorResponse "This profile is already connected to another user account.",
               delete_session_data r, []⟩
      | none =>
        -- DoesNotExist: get_or_create_profile(request.user, save=True, ...)
        let profile : Profile := ⟨env.freshProfileId, u.id⟩
        .ok ⟨.redirect (get_next r), r,
             [.profileCreated profile, .connectSignal u.id profile.id client.id]⟩
    | none =>
      match env.authenticateLookup with
      | none =>
        if !cfg.allowOpenidSignups && cfg.clientIsOpenID then
          .ok ⟨.errorResponse "We are not currently accepting new OpenID signups.", r, []⟩
        else
          let user := env.freshUser
          let profile : Profile := ⟨env.freshProfileId, user.id⟩
          .ok ⟨.redirect "socialregistration:setup",
               store_session_data r user profile client, []⟩
      | some user =>
        if !user.isActive then
          .ok ⟨.inactiveResponse, r, []⟩
        else
          let r1 := login_user r user
          match env.getProfileByUser with
          | none => .error (.doesNotExist, r1)
          | some profile =>
            .ok ⟨.redirect (get_next r1), r1,
                 [.loginPerformed user.id, .loginSignal user.id profile.id client.id]⟩

/-- Setup.generate_username_and_redirect (views.py lines 84-114): set the
generated username, mark the password unusable, save the user, link and save
the profile, re-authenticate through the profile, emit the connect signal,
log in, emit the login signal, delete the pending session data and redirect
to the stored next URL. -/
def generate_username_and_redirect (env : Env) (r : Request)
    (user : User) (profile : Profile) (client : Client) : HandlerResult :=
  let user1 := { user with
      username := env.usernameFor user profile client,
      hasUsablePassword := false }
  let profile1 := { profile with userId := user1.id }
  let user2 := env.profileAuth profile1
  let r1 := delete_session_data (login_user r user2)
  .ok ⟨.redirect (get_next r1), r1,
       [.userSaved user1, .profileSaved profile1,
        .connectSignal user2.id profile1.id client.id,
        .loginPerformed user2.id,
        .loginSignal user2.id profile1.id client.id]⟩

/-- Setup.get (views.py lines 116-137): authenticated visitors are redirected
past the setup step; missing session data renders an error; with
`SOCIALREGISTRATION_GENERATE_USERNAME` set the username path runs, otherwise
the setup form is rendered. -/
def Setup_get (cfg : Config) (env : Env) (r : Request) : HandlerResult :=
  match r.user with
  | some _ => .ok ⟨.redirect (get_next r), r, []⟩
  | none =>
    match get_session_data r with
    | none => .ok ⟨.errorResponse "Social profile is missing from your session.", r, []⟩
    | some (user, profile, client) =>
      if cfg.generateUsername then
        generate_username_and_redirect env r user profile client
      else
        .ok ⟨.renderForm, r, []⟩

/-- Setup.post (views.py lines 139-173).  `formValid` is the result of
`form.is_valid()`; `formSave` is the (delegated) persistence performed by
`form.save(request, user, profile, client)`, returning the saved pair. -/
def Setup_post (env : Env) (formValid : Bool)
    (formSave : User → Profile → Client → User × Profile) (r : Request) : HandlerResult :=
  match r.user with
  | some _ => .ok ⟨.errorResponse "You are already logged in.", r, []⟩
  | none =>
    match get_session_data r with
    | none => .ok ⟨.errorResponse "A social profile is missing from your session.", r, []⟩
    | some (user, profile, client) =>
      if !formValid then
        .ok ⟨.renderForm, r, []⟩
      else
        let (user1, profile1) := formSave user profile client
        let user2 := env.profileAuth profile1
        let r1 := delete_session_data (login_user r user2)
        .ok ⟨.redirect (get_next r1), r1,
             [.userSaved user1, .profileSaved profile1,
              .connectSignal user2.id profile1.id client.id,
              .loginPerformed user2.id,
              .loginSignal user2.id profile1.id client.id]⟩

/-- OAuthRedirect.post (views.py lines 201-217): store the next URL and a
fresh client in the session, then ask the client for the provider
authorization URL.  `get_redirect_url` is called outside the try block, so an
exception it raises propagates with the session already updated; the try
block only wraps `HttpResponseRedirect(url)`, which does not raise, so its
except clauses never fire. -/
def OAuthRedirect_post (env : Env) (fresh : Client) (r : Request) : HandlerResult :=
  let r1 := { r with session := { r.session with
      next := some (get_next r), client := some fresh } }
  match env.getRedirectUrl with
  | .error f => .error (f, r1)
  | .ok url => .ok ⟨.redirect url, r1, []⟩

/-- Methods for which `OAuthRedirect` defines a handler: the source defines
only `post` (views.py line 201), so the framework dispatch answers every
other verb with method-not-allowed. -/
def OAuthRedirect_handlers : List String := ["post"]

/-- Framework dispatch for `OAuthRedirect`: route to the defined handler or
answer 405. -/
def OAuthRedirect_dispatch (env : Env) (fresh : Client) (method : String)
    (r : Request) : HandlerResult :=
  if OAuthRedirect_handlers.contains method then OAuthRedirect_post env fresh r
  else .ok ⟨.methodNotAllowed, r, []⟩

/-- OAuthCallback.get (views.py lines 242-264): fetch the pending client from
the session (a missing key is caught as "Session expired."), complete the
handshake, re-store the completed client and redirect to `redirectTarget`
(`self.get_redirect()`).  When `complete` raises, Python evaluates the clause
`except error:`; the name `error` is undefined, so a `NameError` is raised
while handling the original exception and propagates; the later
`except socket.timeout:` clause is never reached. -/
def OAuthCallback_get (env : Env) (redirectTarget : String) (r : Request) : HandlerResult :=
  match r.session.client with
  | none => .ok ⟨.errorResponse "Session expired.", r, []⟩
  | some _ =>
    match env.completeResult with
    | .error _ => .error (.nameError, r)
    | .ok completed =>
      .ok ⟨.redirect redirectTarget,
           { r with session := { r.session with client := some completed } }, []⟩

/-- Request state a handler left behind, whether it returned or faulted. -/
def resultRequest : HandlerResult → Request
  | .error (_, r) => r
  | .ok o => o.request

/-! Theorems -/

/-- C1: on a GET to the decision flow with the session authenticated as `u`,
the identity client present, and the lookup keys resolving to a profile owned
by a different user, the flow deletes the pending session data and renders
the already-connected error; no profile is created or mutated, no connect
signal is emitted and no redirect is returned. -/
theorem setupCallback_already_connected_error
    (cfg : Config) (env : Env) (r : Request) (u : User) (c : Client) (p : Profile)
    (hauth : r.user = some u)
    (hclient : r.session.client = some c)
    (hprofile : env.getProfile = some p)
    (howner : p.userId ≠ u.id) :
    SetupCallback_get cfg env r =
      .ok ⟨.errorResponse "This profile is already connected to another user account.",
           delete_session_data r, []⟩ := by
  unfold SetupCallback_get
  rw [hclient, hauth, hprofile]
  simp [howner]

def c1User : User := ⟨1, "alice", true, true⟩
def c1Profile : Profile := ⟨10, 2⟩
def c1Client : Client := ⟨3, true⟩
def c1Env : Env :=
  { getProfile := some c1Profile, getProfileByUser := none,
    authenticateLookup := none, freshUser := c1User, freshProfileId := 0,
    usernameFor := fun _ _ _ => "", profileAuth := fun _ => c1User,
    getRedirectUrl := .ok "", completeResult := .ok c1Client }
def c1Req : Request :=
  { user := some c1User, nextParam := none,
    session := ⟨some "/home", some c1Client, none, none, none⟩ }

/-- Witness for C1 at a concrete authenticated request whose lookup keys hit
a profile owned by user 2 while the session user is user 1. -/
theorem setupCallback_already_connected_error_witness :
    SetupCallback_get ⟨false, true, false⟩ c1Env c1Req =
      .ok ⟨.errorResponse "This profile is already connected to another user account.",
           delete_session_data c1Req, []⟩ :=
  setupCallback_already_connected_error _ _ _ c1User c1Client c1Profile
    rfl rfl rfl (by decide)

/-- C2: on a GET to the decision flow with the session authenticated as `u`,
the identity client present, and the lookup keys resolving to a profile
already owned by `u`, the flow keeps that profile (no creation event), emits
exactly one connect signal with (u, profile, client) and redirects to the
stored next URL; the request state is unchanged. -/
theorem setupCallback_idempotent_reconnect
    (cfg : Config) (env : Env) (r : Request) (u : User) (c : Client) (p : Profile)
    (hauth : r.user = some u)
    (hclient : r.session.client = some c)
    (hprofile : env.getProfile = some p)
    (howner : p.userId = u.id) :
    SetupCallback_get cfg env r =
      .ok ⟨.redirect (get_next r), r, [.connectSignal u.id p.id c.id]⟩ := by
  unfold SetupCallback_get
  rw [hclient, hauth, hprofile]
  simp [howner]

def c2User : User := ⟨1, "alice", true, true⟩
def c2Profile : Profile := ⟨10, 1⟩
def c2Client : Client := ⟨3, true⟩
def c2Env : Env :=
  { getProfile := some c2Profile, getProfileByUser := none,
    authenticateLookup := none, freshUser := c2User, freshProfileId := 0,
    usernameFor := fun _ _ _ => "", profileAuth := fun _ => c2User,
    getRedirectUrl := .ok "", completeResult := .ok c2Client }
def c2Req : Request :=
  { user := some c2User, nextParam := none,
    session := ⟨some "/home", some c2Client, none, none, none⟩ }

/-- Witness for C2 at a concrete request where the found profile already
belongs to the session user. -/
theorem setupCallback_idempotent_reconnect_witness :
    SetupCallback_get ⟨false, true, false⟩ c2Env c2Req =
      .ok ⟨.redirect "/home", c2Req, [.connectSignal 1 10 3]⟩ :=
  setupCallback_idempotent_reconnect _ _ _ c2User c2Client c2Profile
    rfl rfl rfl rfl

/-- C3: on a GET to the decision flow with an anonymous session, the identity
client present, and `authenticate(**lookup_kwargs)` resolving to an active
user, the session is bound to that user, exactly one login signal fires with
(user, profile, client), and the response redirects to the stored next
URL. -/
theorem setupCallback_anonymous_login
    (cfg : Config) (env : Env) (r : Request) (u : User) (c : Client) (p : Profile)
    (hanon : r.user = none)
    (hclient : r.session.client = some c)
    (hauthu : env.authenticateLookup = some u)
    (hactive : u.isActive = true)
    (hprof : env.getProfileByUser = some p) :
    SetupCallback_get cfg env r =
      .ok ⟨.redirect (get_next r), login_user r u,
           [.loginPerformed u.id, .loginSignal u.id p.id c.id]⟩ := by
  unfold SetupCallback_get
  rw [hclient, hanon, hauthu, hprof]
  simp [hactive, get_next, login_user]

def c3User : User := ⟨4, "bob", true, true⟩
def c3Profile : Profile := ⟨11, 4⟩
def c3Client : Client := ⟨5, true⟩
def c3Env : Env :=
  { getProfile := none, getProfileByUser := some c3Profile,
    authenticateLookup := some c3User, freshUser := c3User, freshProfileId := 0,
    usernameFor := fun _ _ _ => "", profileAuth := fun _ => c3User,
    getRedirectUrl := .ok "", completeResult := .ok c3Client }
def c3Req : Request :=
  { user := none, nextParam := none,
    session := ⟨some "/after", some c3Client, none, none, none⟩ }

/-- Witness for C3 at a concrete anonymous request resolving to an active
user with an existing profile. -/
theorem setupCallback_anonymous_login_witness :
    SetupCallback_get ⟨false, true, false⟩ c3Env c3Req =
      .ok ⟨.redirect "/after", login_user c3Req c3User,
           [.loginPerformed 4, .loginSignal 4 11 5]⟩ :=
  setupCallback_anonymous_login _ _ _ c3User c3Client c3Profile
    rfl rfl rfl rfl rfl

/-- C5: on a GET to the decision flow with an anonymous session, the identity
client present, `authenticate(**lookup_kwargs)` resolving to no user, the
configured client class being the OpenID variant and OpenID signups disabled,
the flow renders the signups-disabled error; the request state is unchanged
and no user or profile is created. -/
theorem setupCallback_openid_signups_disabled
    (cfg : Config) (env : Env) (r : Request) (c : Client)
    (hanon : r.user = none)
    (hclient : r.session.client = some c)
    (hauthu : env.authenticateLookup = none)
    (hopenid : cfg.clientIsOpenID = true)
    (hdis : cfg.allowOpenidSignups = false) :
    SetupCallback_get cfg env r =
      .ok ⟨.errorResponse "We are not currently accepting new OpenID signups.", r, []⟩ := by
  unfold SetupCallback_get
  rw [hclient, hanon, hauthu]
  simp [hopenid, hdis]

def c5User : User := ⟨6, "x", true, true⟩
def c5Client : Client := ⟨7, true⟩
def c5Env : Env :=
  { getProfile := none, getProfileByUser := none,
    authenticateLookup := none, freshUser := c5User, freshProfileId := 0,
    usernameFor := fun _ _ _ => "", profileAuth := fun _ => c5User,
    getRedirectUrl := .ok "", completeResult := .ok c5Client }
def c5Req : Request :=
  { user := none, nextParam := none,
    session := ⟨none, some c5Client, none, none, none⟩ }

/-- Witness for C5 with OpenID signups switched off. -/
theorem setupCallback_openid_signups_disabled_witness :
    SetupCallback_get ⟨false, false, true⟩ c5Env c5Req =
      .ok ⟨.errorResponse "We are not currently accepting new OpenID signups.", c5Req, []⟩ :=
  setupCallback_openid_signups_disabled _ _ _ c5Client rfl rfl rfl rfl rfl

/-- C6: on a GET to the decision flow with an anonymous session, the identity
client present, and `authenticate(**lookup_kwargs)` resolving to an inactive
user, the inactive-account response is rendered; the request state is
unchanged (no login), and no signal is emitted. -/
theorem setupCallback_inactive_no_login
    (cfg : Config) (env : Env) (r : Request) (u : User) (c : Client)
    (hanon : r.user = none)
    (hclient : r.session.client = some c)
    (hauthu : env.authenticateLookup = some u)
    (hinact : u.isActive = false) :
    SetupCallback_get cfg env r = .ok ⟨.inactiveResponse, r, []⟩ := by
  unfold SetupCallback_get
  rw [hclient, hanon, hauthu]
  simp [hinact]

def c6User : User := ⟨8, "carol", false, true⟩
def c6Client : Client := ⟨9, true⟩
def c6Env : Env :=
  { getProfile := none, getProfileByUser := none,
    authenticateLookup := some c6User, freshUser := c6User, freshProfileId := 0,
    usernameFor := fun _ _ _ => "", profileAuth := fun _ => c6User,
    getRedirectUrl := .ok "", completeResult := .ok c6Client }
def c6Req : Request :=
  { user := none, nextParam := none,
    session := ⟨some "/n", some c6Client, none, none, none⟩ }

/-- Witness for C6 at a concrete anonymous request resolving to an inactive
user. -/
theorem setupCallback_inactive_no_login_witness :
    SetupCallback_get ⟨false, true, false⟩ c6Env c6Req =
      .ok ⟨.inactiveResponse, c6Req, []⟩ :=
  setupCallback_inactive_no_login _ _ _ c6User c6Client rfl rfl rfl rfl

/-- C7: in auto-generate mode, a GET to Setup with an anonymous session and
the (user, profile, client) triple present runs exactly the sequence: save
the user with the generated username and an unusable password, save the
profile linked to that user, re-authenticate through the profile, emit the
connect signal, log in, emit the login signal, delete the pending session
data, and redirect to the stored next URL. -/
theorem setup_get_autogenerate
    (cfg : Config) (env : Env) (r : Request)
    (user : User) (profile : Profile) (client : Client)
    (hanon : r.user = none)
    (hsess : get_session_data r = some (user, profile, client))
    (hgen : cfg.generateUsername = true) :
    Setup_get cfg env r =
      .ok ⟨.redirect (get_next r),
           delete_session_data
             (login_user r (env.profileAuth { profile with userId := user.id })),
           [.userSaved { user with
                username := env.usernameFor user profile client,
                hasUsablePassword := false },
            .profileSaved { profile with userId := user.id },
            .connectSignal (env.profileAuth { profile with userId := user.id }).id
              profile.id client.id,
            .loginPerformed (env.profileAuth { profile with userId := user.id }).id,
            .loginSignal (env.profileAuth { profile with userId := user.id }).id
              profile.id client.id]⟩ := by
  unfold Setup_get generate_username_and_redirect
  rw [hanon, hsess]
  simp [hgen, get_next, delete_session_data, login_user]

def c7User : User := ⟨12, "", true, true⟩
def c7Profile : Profile := ⟨13, 0⟩
def c7Client : Client := ⟨14, true⟩
def c7Env : Env :=
  { getProfile := none, getProfileByUser := none,
    authenticateLookup := none, freshUser := c7User, freshProfileId := 0,
    usernameFor := fun _ _ _ => "generated", profileAuth := fun p => ⟨p.userId, "generated", true, false⟩,
    getRedirectUrl := .ok "", completeResult := .ok c7Client }
def c7Req : Request :=
  { user := none, nextParam := none,
    session := ⟨some "/done", none, some c7User, some c7Profile, some c7Client⟩ }

/-- Witness for C7 at a concrete anonymous request carrying a pending triple,
with username generation switched on. -/
theorem setup_get_autogenerate_witness :
    Setup_get ⟨true, true, false⟩ c7Env c7Req =
      .ok ⟨.redirect "/done",
           delete_session_data (login_user c7Req ⟨12, "generated", true, false⟩),
           [.userSaved ⟨12, "generated", true, false⟩,
            .profileSaved ⟨13, 12⟩,
            .connectSignal 12 13 14,
            .loginPerformed 12,
            .loginSignal 12 13 14]⟩ :=
  setup_get_autogenerate _ _ _ c7User c7Profile c7Client rfl rfl rfl

/-- C9: a POST to Setup with an anonymous session, the pending triple
present, and an invalid form re-renders the form and does nothing else: the
request (hence the pending session data and the anonymous state) is
unchanged and no event is emitted. -/
theorem setup_post_invalid_form
    (env : Env) (formSave : User → Profile → Client → User × Profile) (r : Request)
    (user : User) (profile : Profile) (client : Client)
    (hanon : r.user = none)
    (hsess : get_session_data r = some (user, profile, client)) :
    Setup_post env false formSave r = .ok ⟨.renderForm, r, []⟩ := by
  unfold Setup_post
  rw [hanon, hsess]
  simp

def c9User : User := ⟨15, "d", true, true⟩
def c9Profile : Profile := ⟨16, 0⟩
def c9Client : Client := ⟨17, true⟩
def c9Env : Env :=
  { getProfile := none, getProfileByUser := none,
    authenticateLookup := none, freshUser := c9User, freshProfileId := 0,
    usernameFor := fun _ _ _ => "", profileAuth := fun _ => c9User,
    getRedirectUrl := .ok "", completeResult := .ok c9Client }
def c9Req : Request :=
  { user := none, nextParam := none,
    session := ⟨some "/done", none, some c9User, some c9Profile, some c9Client⟩ }

/-- Witness for C9 at a concrete invalid submission with the pending triple
in the session. -/
theorem setup_post_invalid_form_witness :
    Setup_post c9Env false (fun u p _ => (u, p)) c9Req =
      .ok ⟨.renderForm, c9Req, []⟩ :=
  setup_post_invalid_form _ _ _ c9User c9Profile c9Client rfl rfl

def c4User : User := ⟨18, "e", true, true⟩
def c4Client : Client := ⟨19, false⟩
def c4Env : Env :=
  { getProfile := none, getProfileByUser := none,
    authenticateLookup := none, freshUser := c4User, freshProfileId := 0,
    usernameFor := fun _ _ _ => "", profileAuth := fun _ => c4User,
    getRedirectUrl := .error .timeout, completeResult := .error .clientFault }
def c4Req : Request :=
  { user := none, nextParam := some "/nx",
    session := ⟨none, some c4Client, none, none, none⟩ }

/-- C4 evaluated at the failing inputs: a timeout raised by
`client.get_redirect_url` escapes `OAuthRedirect.post` because the call sits
outside the try block, and a handshake error raised by `client.complete`
escapes `OAuthCallback.get` as the `NameError` produced by the undefined name
in its `except error:` clause; neither view renders an error response for
these client failures. -/
theorem oauth_client_failures_propagate :
    OAuthRedirect_post c4Env c4Client c4Req =
      .error (.timeout,
        { c4Req with session := { c4Req.session with
            next := some "/nx", client := some c4Client } }) ∧
    OAuthCallback_get c4Env "target" c4Req = .error (.nameError, c4Req) :=
  ⟨rfl, rfl⟩

def c8User : User := ⟨20, "f", true, true⟩
def c8Client : Client := ⟨21, false⟩
def c8Env : Env :=
  { getProfile := none, getProfileByUser := none,
    authenticateLookup := none, freshUser := c8User, freshProfileId := 0,
    usernameFor := fun _ _ _ => "", profileAuth := fun _ => c8User,
    getRedirectUrl := .ok "https://provider/authorize", completeResult := .ok c8Client }
def c8Req : Request :=
  { user := none, nextParam := some "/nx", session := ⟨none, none, none, none, none⟩ }

/-- C8 counterexample: `OAuthRedirect` defines only a `post` handler, so a
concrete GET to redirect-start is answered with method-not-allowed; no client
and no next URL is stored in the session and no redirect to the provider is
returned. -/
theorem oauthRedirect_get_counterexample :
    OAuthRedirect_handlers = ["post"] ∧
    OAuthRedirect_dispatch c8Env c8Client "get" c8Req =
      .ok ⟨.methodNotAllowed, c8Req, []⟩ ∧
    (resultRequest (OAuthRedirect_dispatch c8Env c8Client "get" c8Req)).session.client = none ∧
    (resultRequest (OAuthRedirect_dispatch c8Env c8Client "get" c8Req)).session.next = none :=
  ⟨rfl, rfl, rfl, rfl⟩

/-- C8 amended: the redirect-start view handles its flow-starting request on
HTTP POST; for every POST where the client yields an authorization URL, a
fresh client and the next URL are stored in the session and the response
redirects the browser there. -/
theorem oauthRedirect_post_starts_flow
    (env : Env) (fresh : Client) (r : Request) (url : String)
    (hurl : env.getRedirectUrl = .ok url) :
    OAuthRedirect_dispatch env fresh "post" r =
      .ok ⟨.redirect url,
           { r with session := { r.session with
               next := some (get_next r), client := some fresh } }, []⟩ := by
  unfold OAuthRedirect_dispatch OAuthRedirect_handlers OAuthRedirect_post
  rw [hurl]
  simp

/-- Witness for the amended C8 at a concrete POST whose client yields the
provider authorization URL. -/
theorem oauthRedirect_post_starts_flow_witness :
    OAuthRedirect_dispatch c8Env c8Client "post" c8Req =
      .ok ⟨.redirect "https://provider/authorize",
           { c8Req with session := { c8Req.session with
               next := some "/nx", client := some c8Client } }, []⟩ :=
  oauthRedirect_post_starts_flow _ _ _ "https://provider/authorize" rfl

/-- C10: `OAuthRedirect.post` writes the next URL and the fresh client into
the session before asking the client for the authorization URL, so for every
request — in particular for every environment in which `get_redirect_url`
fails — the request state the handler leaves behind has both session keys
set. -/
theorem oauthRedirect_session_written_before_url
    (env : Env) (fresh : Client) (r : Request) :
    (resultRequest (OAuthRedirect_post env fresh r)).session.next = some (get_next r) ∧
    (resultRequest (OAuthRedirect_post env fresh r)).session.client = some fresh := by
  cases henv : env.getRedirectUrl <;>
    simp [OAuthRedirect_post, resultRequest, henv]

end SocialReg
